import Mathlib

/-!
Shallow embedding of `src/ui/src/treeDataProvider/AzureAccountTreeItemBase.ts`
(abstract class `AzureAccountTreeItemBase`).

Modelling conventions:
* Promises are modelled by pure values; an `await` that always resolves
  (e.g. `azureAccount.waitForFilters()`) is modelled as already completed, so
  `AzureAccount.filters` is the filter list as observed after that wait.
* Thrown exceptions are modelled with `Except TreeError`.
* JavaScript reference identity of tree-item objects is modelled by a `tag`
  field on `SubscriptionTreeItemBase`: two nodes with the same tag stand for
  the same heap object.
* Mutation of the private field `_subscriptionTreeItems` is modelled by
  explicit state passing of `TreeState`.
* `localize(key, default)` is modelled as the default (English) string.
-/

/-- Login status of the Azure account extension
(`AzureLoginStatus` from `azure-account.api`). -/
inductive AzureLoginStatus where
  | Initializing
  | LoggingIn
  | LoggedIn
  | LoggedOut
deriving DecidableEq, Repr

/-- The string value carried by each status (the TS type is a union of string
literals; `context.telemetry.properties.accountStatus = azureAccount.status`
stores exactly this string). -/
def AzureLoginStatus.telemetryValue : AzureLoginStatus → String
  | .Initializing => "Initializing"
  | .LoggingIn => "LoggingIn"
  | .LoggedIn => "LoggedIn"
  | .LoggedOut => "LoggedOut"

/-- Modelled from the spec: errors this unit can observe.  `userCancelled`
embeds `UserCancelledError` from `../errors` (not under `src/`);
`nonNullError` embeds the error thrown by `nonNullProp` / `nonNullValue` from
`../utils/nonNull` (not under `src/`) when a required property is missing;
`factoryFailure` stands for an arbitrary failure of the abstract factory
`createSubscriptionTreeItem`. -/
inductive TreeError where
  | userCancelled
  | nonNullError (prop : String)
  | factoryFailure (msg : String)
deriving DecidableEq, Repr

/-- Modelled from the spec: `nonNullProp`/`nonNullValue` from `../utils/nonNull`
(not under `src/`): validates that a property is neither null nor undefined,
throwing otherwise. -/
def nonNull (v : Option α) (propertyName : String) : Except TreeError α :=
  match v with
  | some x => Except.ok x
  | none => Except.error (TreeError.nonNullError propertyName)

/-- Session part of an `AzureResourceFilter` (`filter.session`); credentials
and environment are kept abstract as opaque strings. -/
structure AzureSession where
  credentials : String
  tenantId : String
  userId : String
  environment : String
deriving DecidableEq, Repr

/-- Subscription part of an `AzureResourceFilter` (`filter.subscription`).
`id` is the fully-qualified path (e.g. `/subscriptions/<guid>`),
`subscriptionId` the bare guid.  All three fields are optional in the
TS `Subscription` model (hence the `nonNullProp` calls in the source). -/
structure SubscriptionModel where
  id : Option String
  subscriptionId : Option String
  displayName : Option String
deriving DecidableEq, Repr

/-- `AzureResourceFilter` from `azure-account.api`. -/
structure AzureResourceFilter where
  session : AzureSession
  subscription : SubscriptionModel
deriving DecidableEq, Repr

/-- The account handle exposed by the Azure Account extension: its status and
its filter list (as observed after `waitForFilters()` resolves). -/
structure AzureAccount where
  status : AzureLoginStatus
  filters : List AzureResourceFilter
deriving DecidableEq, Repr

/-- `ISubscriptionContext`: the resolved context handed to
`createSubscriptionTreeItem` (source lines 106-114). -/
structure ISubscriptionContext where
  credentials : String
  subscriptionDisplayName : String
  subscriptionId : String
  subscriptionPath : String
  tenantId : String
  userId : String
  environment : String
deriving DecidableEq, Repr

/-- A subscription tree item (`SubscriptionTreeItemBase`).  `id` is the tree
item's id (the fully-qualified subscription path, possibly undefined),
`root` its resolved subscription context, and `tag` models JavaScript
reference identity of the heap object. -/
structure SubscriptionTreeItemBase where
  id : Option String
  root : ISubscriptionContext
  tag : Nat
deriving DecidableEq, Repr

/-- Modelled from the spec: the observable options of a `GenericTreeItem`
(from `./GenericTreeItem`, not under `src/`): label, optional command,
context value, optional id, picker inclusion, icon presence and command
arguments. -/
structure GenericTreeItem where
  label : String
  commandId : Option String
  contextValue : String
  id : Option String
  includeInTreeItemPicker : Bool
  hasIcon : Bool
  commandArgs : Option (List String)
deriving DecidableEq, Repr

/-- A child returned by `loadMoreChildrenImpl`: either a generic placeholder
or a subscription node. -/
inductive AzExtTreeItem where
  | generic (item : GenericTreeItem)
  | subscription (item : SubscriptionTreeItemBase)
deriving DecidableEq, Repr

/-- The mutable private field `_subscriptionTreeItems` of the tree item
(`SubscriptionTreeItemBase[] | undefined`). -/
structure TreeState where
  subscriptionTreeItems : Option (List SubscriptionTreeItemBase)
deriving DecidableEq, Repr

/-- String constants from the top of the source file. -/
def signInLabel : String := "Sign in to Azure..."

def createAccountLabel : String := "Create a Free Azure Account..."

def selectSubscriptionsLabel : String := "Select Subscriptions..."

def signInCommandId : String := "azure-account.login"

def createAccountCommandId : String := "azure-account.createAccount"

def selectSubscriptionsCommandId : String := "azure-account.selectSubscriptions"

def azureAccountExtensionId : String := "ms-vscode.azure-account"

def extensionOpenCommand : String := "extension.open"

/-- The "Install Azure Account Extension..." item built at source lines 62-64
(including the `commandArgs` assignment). -/
def installAzureAccountItem : GenericTreeItem :=
  { label := "Install Azure Account Extension...",
    commandId := some extensionOpenCommand,
    contextValue := "installAzureAccount",
    id := none,
    includeInTreeItemPicker := true,
    hasIcon := false,
    commandArgs := some [azureAccountExtensionId] }

/-- The loading / signing-in item built at source lines 74-83 for status
`Initializing` or `LoggingIn`: only the label depends on the status; both
variants carry the sign-in command and the sign-in command id, and an icon. -/
def loadingTreeItem (status : AzureLoginStatus) : GenericTreeItem :=
  { label := if status = AzureLoginStatus.Initializing then "Loading..."
             else "Waiting for Azure sign-in...",
    commandId := some signInCommandId,
    contextValue := "azureCommand",
    id := some signInCommandId,
    includeInTreeItemPicker := false,
    hasIcon := true,
    commandArgs := none }

/-- The "Sign in to Azure..." item (source line 86). -/
def signInTreeItem : GenericTreeItem :=
  { label := signInLabel,
    commandId := some signInCommandId,
    contextValue := "azureCommand",
    id := some signInCommandId,
    includeInTreeItemPicker := true,
    hasIcon := false,
    commandArgs := none }

/-- The "Create a Free Azure Account..." item (source line 87). -/
def createAccountTreeItem : GenericTreeItem :=
  { label := createAccountLabel,
    commandId := some createAccountCommandId,
    contextValue := "azureCommand",
    id := some createAccountCommandId,
    includeInTreeItemPicker := true,
    hasIcon := false,
    commandArgs := none }

/-- The "Select Subscriptions..." item (source line 95). -/
def selectSubscriptionsTreeItem : GenericTreeItem :=
  { label := selectSubscriptionsLabel,
    commandId := some selectSubscriptionsCommandId,
    contextValue := "azureCommand",
    id := some selectSubscriptionsCommandId,
    includeInTreeItemPicker := true,
    hasIcon := false,
    commandArgs := none }

/-- The resolved context object literal passed to `createSubscriptionTreeItem`
(source lines 106-114), with the `nonNullProp` calls evaluated in the order
the object literal evaluates them (displayName, subscriptionId, id). -/
def resolveSubscriptionContext (filter : AzureResourceFilter) :
    Except TreeError ISubscriptionContext := do
  let displayName ← nonNull filter.subscription.displayName "displayName"
  let bareId ← nonNull filter.subscription.subscriptionId "subscriptionId"
  let fullPath ← nonNull filter.subscription.id "id"
  Except.ok
    { credentials := filter.session.credentials,
      subscriptionDisplayName := displayName,
      subscriptionId := bareId,
      subscriptionPath := fullPath,
      tenantId := filter.session.tenantId,
      userId := filter.session.userId,
      environment := filter.session.environment }

/-- The per-filter body of the `azureAccount.filters.map` callback (source
lines 98-115): reuse the existing tree item whose id equals the filter's
fully-qualified subscription id, otherwise build the resolved context and
invoke the abstract factory `createSubscriptionTreeItem`. -/
def processFilter (existingSubscriptions : List SubscriptionTreeItemBase)
    (createSubscriptionTreeItem : ISubscriptionContext → Except TreeError SubscriptionTreeItemBase)
    (filter : AzureResourceFilter) : Except TreeError SubscriptionTreeItemBase :=
  match existingSubscriptions.find? (fun ti => ti.id == filter.subscription.id) with
  | some existingTreeItem => Except.ok existingTreeItem
  | none => do
      let root ← resolveSubscriptionContext filter
      createSubscriptionTreeItem root

/-- `Promise.all` over a list of fallible computations: succeeds with the
results in input order when every element succeeds, otherwise propagates a
failure and yields no partial list. -/
def mapExcept (f : α → Except ε β) : List α → Except ε (List β)
  | [] => Except.ok []
  | x :: xs =>
      match f x with
      | Except.error e => Except.error e
      | Except.ok y =>
          match mapExcept f xs with
          | Except.error e => Except.error e
          | Except.ok ys => Except.ok (y :: ys)

/-- The reconciliation pass of `loadMoreChildrenImpl` (source lines 98-116):
`Promise.all(azureAccount.filters.map(...))`. -/
def reconcileSubscriptions (existingSubscriptions : List SubscriptionTreeItemBase)
    (filters : List AzureResourceFilter)
    (createSubscriptionTreeItem : ISubscriptionContext → Except TreeError SubscriptionTreeItemBase) :
    Except TreeError (List SubscriptionTreeItemBase) :=
  mapExcept (processFilter existingSubscriptions createSubscriptionTreeItem) filters

instance exceptDecEq [DecidableEq ε] [DecidableEq α] : DecidableEq (Except ε α)
  | Except.error e, Except.error f =>
      if h : e = f then Decidable.isTrue (by rw [h])
      else Decidable.isFalse (fun c => h (by injection c))
  | Except.error _, Except.ok _ => Decidable.isFalse (fun c => Except.noConfusion c)
  | Except.ok _, Except.error _ => Decidable.isFalse (fun c => Except.noConfusion c)
  | Except.ok x, Except.ok y =>
      if h : x = y then Decidable.isTrue (by rw [h])
      else Decidable.isFalse (fun c => h (by injection c))

/-- The `existingSubscriptions` snapshot taken at source line 69:
`this._subscriptionTreeItems ? this._subscriptionTreeItems : []`. -/
def existingOf (state : TreeState) : List SubscriptionTreeItemBase :=
  match state.subscriptionTreeItems with
  | some items => items
  | none => []

/-- Observable outcome of one `loadMoreChildrenImpl` call: the returned
children (or the propagated error), the state of `_subscriptionTreeItems`
after the call, and the `accountStatus` telemetry property that was set. -/
structure LoadChildrenOutcome where
  result : Except TreeError (List AzExtTreeItem)
  state : TreeState
  accountStatus : String
deriving DecidableEq, Repr

/-- `loadMoreChildrenImpl` (source lines 58-119).  `azureAccount` is the
resolved value of `this._azureAccountTask`; `state` is the value of
`_subscriptionTreeItems` on entry.  `azureAccount.waitForFilters()` is
modelled as already resolved (see the header comment). -/
def loadMoreChildrenImpl (_clearCache : Bool) (azureAccount : Option AzureAccount)
    (state : TreeState)
    (createSubscriptionTreeItem : ISubscriptionContext → Except TreeError SubscriptionTreeItemBase) :
    LoadChildrenOutcome :=
  match azureAccount with
  | none =>
      { result := Except.ok [AzExtTreeItem.generic installAzureAccountItem],
        state := state,
        accountStatus := "notInstalled" }
  | some account =>
      let existingSubscriptions : List SubscriptionTreeItemBase := existingOf state
      let clearedState : TreeState := { subscriptionTreeItems := some [] }
      let statusValue : String := account.status.telemetryValue
      if account.status = AzureLoginStatus.Initializing ∨
          account.status = AzureLoginStatus.LoggingIn then
        { result := Except.ok [AzExtTreeItem.generic (loadingTreeItem account.status)],
          state := clearedState,
          accountStatus := statusValue }
      else if account.status = AzureLoginStatus.LoggedOut then
        { result := Except.ok [AzExtTreeItem.generic signInTreeItem,
                               AzExtTreeItem.generic createAccountTreeItem],
          state := clearedState,
          accountStatus := statusValue }
      else if account.filters.length = 0 then
        { result := Except.ok [AzExtTreeItem.generic selectSubscriptionsTreeItem],
          state := clearedState,
          accountStatus := statusValue }
      else
        match reconcileSubscriptions existingSubscriptions account.filters
            createSubscriptionTreeItem with
        | Except.ok items =>
            { result := Except.ok (items.map AzExtTreeItem.subscription),
              state := { subscriptionTreeItems := some items },
              accountStatus := statusValue }
        | Except.error e =>
            { result := Except.error e,
              state := clearedState,
              accountStatus := statusValue }

/-- The vscode `Extension` handle for the Azure Account extension as returned
by `extensions.getExtension`: whether it is already active and what its
`exports` are once active. -/
structure AccountExtension where
  isActive : Bool
  exports : AzureAccount
deriving DecidableEq, Repr

/-- Observable outcome of `loadAzureAccount` (source lines 151-176): the
resolved account (if any), whether the `isAzureAccountInstalled` context flag
was set, whether the two change listeners were registered, and whether
`extension.activate()` was called during this load. -/
structure LoadAccountOutcome where
  account : Option AzureAccount
  installedFlagSet : Bool
  listenersRegistered : Bool
  activatedNow : Bool
deriving DecidableEq, Repr

/-- `loadAzureAccount` (source lines 151-176).  `testAccount` is the
constructor argument; `installedExtension` is the result of
`extensions.getExtension(azureAccountExtensionId)` (`none` when the Azure
Account extension is not installed). -/
def loadAzureAccount (testAccount : Option AzureAccount)
    (installedExtension : Option AccountExtension) : LoadAccountOutcome :=
  let resolved : Option (AzureAccount × Bool) :=
    match testAccount with
    | some account => some (account, false)
    | none =>
        match installedExtension with
        | some ext2 => some (ext2.exports, !ext2.isActive)
        | none => none
  match resolved with
  | none =>
      { account := none, installedFlagSet := false,
        listenersRegistered := false, activatedNow := false }
  | some (account, activated) =>
      { account := some account, installedFlagSet := true,
        listenersRegistered := true, activatedNow := activated }

/-- An event delivered to the listeners registered in `loadAzureAccount`. -/
inductive AccountEvent where
  | statusChanged (newStatus : AzureLoginStatus)
  | filtersChanged
deriving DecidableEq, Repr

/-- Whether the listeners registered at source lines 164-171 schedule a
refresh for a given event: `onFiltersChanged` always refreshes;
`onStatusChanged` refreshes unless the new status is `LoggedIn`. -/
def schedulesRefresh : AccountEvent → Bool
  | AccountEvent.statusChanged newStatus => newStatus != AzureLoginStatus.LoggedIn
  | AccountEvent.filtersChanged => true

/-- Observable outcome of `ensureSubscriptionTreeItems` (source lines
178-196): its return value (or thrown error), the state of
`_subscriptionTreeItems` after the call, whether the marketplace page was
opened (the `extension.open` command executed), and the `cancelStep`
telemetry property if it was set. -/
structure EnsureOutcome where
  result : Except TreeError (List SubscriptionTreeItemBase)
  state : TreeState
  openedMarketplace : Bool
  cancelStep : Option String
deriving DecidableEq, Repr

/-- `ensureSubscriptionTreeItems` (source lines 178-196).
`userAcceptsInstall` models the user's choice in the warning dialog (`true`
when they click "View in Marketplace").  When `_subscriptionTreeItems` is
undefined, `getCachedChildren` triggers `loadMoreChildrenImpl`; the final
`nonNullValue(this._subscriptionTreeItems, ...)` is modelled by `nonNull`. -/
def ensureSubscriptionTreeItems (azureAccount : Option AzureAccount)
    (userAcceptsInstall : Bool) (state : TreeState)
    (createSubscriptionTreeItem : ISubscriptionContext → Except TreeError SubscriptionTreeItemBase) :
    EnsureOutcome :=
  match azureAccount with
  | none =>
      { result := Except.error TreeError.userCancelled,
        state := state,
        openedMarketplace := userAcceptsInstall,
        cancelStep := some "requiresAzureAccount" }
  | some account =>
      match state.subscriptionTreeItems with
      | some items =>
          { result := Except.ok items, state := state,
            openedMarketplace := false, cancelStep := none }
      | none =>
          let loaded := loadMoreChildrenImpl false (some account) state
            createSubscriptionTreeItem
          match loaded.result with
          | Except.error e =>
              { result := Except.error e, state := loaded.state,
                openedMarketplace := false, cancelStep := none }
          | Except.ok _ =>
              { result := nonNull loaded.state.subscriptionTreeItems "subscriptionTreeItems",
                state := loaded.state,
                openedMarketplace := false, cancelStep := none }

/-- `Partial<ISubscriptionWizardContext>`: the caller's wizard context, with
every subscription field possibly still unset.  A field set to `some ""`
models a property present but holding the empty string. -/
structure SubscriptionWizardContext where
  credentials : Option String
  subscriptionDisplayName : Option String
  subscriptionId : Option String
  subscriptionPath : Option String
  tenantId : Option String
  userId : Option String
  environment : Option String
deriving DecidableEq, Repr

/-- `Object.assign(context, root)` for a full `ISubscriptionContext` `root`
(source lines 124 and 132): every subscription field of the context is
overwritten with the corresponding field of `root`. -/
def assignSubscriptionContext (_context : SubscriptionWizardContext)
    (root : ISubscriptionContext) : SubscriptionWizardContext :=
  { credentials := some root.credentials,
    subscriptionDisplayName := some root.subscriptionDisplayName,
    subscriptionId := some root.subscriptionId,
    subscriptionPath := some root.subscriptionPath,
    tenantId := some root.tenantId,
    userId := some root.userId,
    environment := some root.environment }

/-- JavaScript truthiness of a possibly-undefined string: `undefined` and the
empty string are falsy. -/
def truthyString : Option String → Bool
  | none => false
  | some s => s != ""

/-- `SubscriptionPromptStep.shouldPrompt` (source line 134):
`!context.subscriptionId` under JavaScript truthiness. -/
def subscriptionShouldPrompt (context : SubscriptionWizardContext) : Bool :=
  !(truthyString context.subscriptionId)

/-- Observable outcome of `getSubscriptionPromptStep` (source lines 121-138):
`result` is `Except.ok true` when a `SubscriptionPromptStep` is returned,
`Except.ok false` when `undefined` is returned, and an error when
`ensureSubscriptionTreeItems` throws; `context` is the caller's wizard
context after the call. -/
structure PromptStepOutcome where
  result : Except TreeError Bool
  context : SubscriptionWizardContext
  state : TreeState
  openedMarketplace : Bool
deriving DecidableEq, Repr

/-- `getSubscriptionPromptStep` (source lines 121-138). -/
def getSubscriptionPromptStep (azureAccount : Option AzureAccount)
    (userAcceptsInstall : Bool) (state : TreeState)
    (createSubscriptionTreeItem : ISubscriptionContext → Except TreeError SubscriptionTreeItemBase)
    (context : SubscriptionWizardContext) : PromptStepOutcome :=
  let ensured := ensureSubscriptionTreeItems azureAccount userAcceptsInstall state
    createSubscriptionTreeItem
  match ensured.result with
  | Except.error e =>
      { result := Except.error e, context := context,
        state := ensured.state, openedMarketplace := ensured.openedMarketplace }
  | Except.ok subscriptions =>
      match subscriptions with
      | [s] =>
          { result := Except.ok false,
            context := assignSubscriptionContext context s.root,
            state := ensured.state, openedMarketplace := ensured.openedMarketplace }
      | _ =>
          { result := Except.ok true, context := context,
            state := ensured.state, openedMarketplace := ensured.openedMarketplace }

theorem mapExcept_ok (f : α → Except ε β) :
    ∀ (l : List α) (res : List β), mapExcept f l = Except.ok res →
      res.length = l.length ∧
      ∀ (i : Nat) (x : α), l.get? i = some x →
        ∃ y, f x = Except.ok y ∧ res.get? i = some y
  | [], res, h => by
      simp only [mapExcept, Except.ok.injEq] at h
      subst h
      refine ⟨rfl, ?_⟩
      intro i x hx
      simp at hx
  | a :: l, res, h => by
      unfold mapExcept at h
      cases hfa : f a with
      | error e => rw [hfa] at h; simp at h
      | ok y =>
          rw [hfa] at h
          cases hrest : mapExcept f l with
          | error e => rw [hrest] at h; simp at h
          | ok ys =>
              rw [hrest] at h
              simp only [Except.ok.injEq] at h
              subst h
              have ih := mapExcept_ok f l ys hrest
              refine ⟨by simp [ih.1], ?_⟩
              intro i x hx
              cases i with
              | zero =>
                  simp only [List.get?_cons_zero, Option.some.injEq] at hx
                  subst hx
                  exact ⟨y, hfa, rfl⟩
              | succ n =>
                  simp only [List.get?_cons_succ] at hx ⊢
                  exact ih.2 n x hx

theorem mapExcept_error_of_mem (f : α → Except ε β) :
    ∀ (l : List α) (x : α), x ∈ l → ∀ e, f x = Except.error e →
      ∃ e2, mapExcept f l = Except.error e2
  | a :: l, x, hmem, e, hfx => by
      unfold mapExcept
      cases hfa : f a with
      | error e0 => exact ⟨e0, rfl⟩
      | ok y =>
          rcases List.mem_cons.mp hmem with heq | htail
          · subst heq; rw [hfa] at hfx; exact absurd hfx (by simp)
          · rcases mapExcept_error_of_mem f l x htail e hfx with ⟨e2, h2⟩
            rw [h2]
            exact ⟨e2, rfl⟩

theorem mapExcept_error_mem (f : α → Except ε β) :
    ∀ (l : List α) (e : ε), mapExcept f l = Except.error e →
      ∃ x ∈ l, f x = Except.error e
  | a :: l, e, h => by
      unfold mapExcept at h
      cases hfa : f a with
      | error e0 =>
          rw [hfa] at h
          simp only [Except.error.injEq] at h
          subst h
          exact ⟨a, List.mem_cons_self a l, hfa⟩
      | ok y =>
          rw [hfa] at h
          cases hrest : mapExcept f l with
          | error e0 =>
              rw [hrest] at h
              simp only [Except.error.injEq] at h
              subst h
              rcases mapExcept_error_mem f l e0 hrest with ⟨x, hx, hfx⟩
              exact ⟨x, List.mem_cons_of_mem a hx, hfx⟩
          | ok ys => rw [hrest] at h; simp at h

theorem mapExcept_congr (f g : α → Except ε β) :
    ∀ (l : List α), (∀ x ∈ l, f x = g x) → mapExcept f l = mapExcept g l
  | [], _ => rfl
  | a :: l, h => by
      unfold mapExcept
      rw [h a (List.mem_cons_self a l),
        mapExcept_congr f g l (fun x hx => h x (List.mem_cons_of_mem a hx))]

/-- C1: for every pair of a previous subscription-node list and a new filter
list, a successful reconciliation pass returns a list whose length equals the
new filter count and whose order follows the new filter order; at each index,
a filter whose fully-qualified subscription id matches the id of a node found
in the previous list yields that very node, and an unmatched filter yields
the node created by `createSubscriptionTreeItem` on the filter's resolved
context. -/
theorem reconcileSubscriptions_spec
    (existingSubscriptions : List SubscriptionTreeItemBase)
    (filters : List AzureResourceFilter)
    (factory : ISubscriptionContext → Except TreeError SubscriptionTreeItemBase)
    (res : List SubscriptionTreeItemBase)
    (h : reconcileSubscriptions existingSubscriptions filters factory = Except.ok res) :
    res.length = filters.length ∧
    ∀ (i : Nat) (filter : AzureResourceFilter), filters.get? i = some filter →
      (∀ t, existingSubscriptions.find? (fun ti => ti.id == filter.subscription.id) = some t →
          res.get? i = some t) ∧
      (existingSubscriptions.find? (fun ti => ti.id == filter.subscription.id) = none →
          ∃ root node, resolveSubscriptionContext filter = Except.ok root ∧
            factory root = Except.ok node ∧ res.get? i = some node) := by
  unfold reconcileSubscriptions at h
  have hmain := mapExcept_ok (processFilter existingSubscriptions factory) filters res h
  refine ⟨hmain.1, ?_⟩
  intro i filter hfi
  rcases hmain.2 i filter hfi with ⟨y, hy, hres⟩
  constructor
  · intro t hfind
    unfold processFilter at hy
    rw [hfind] at hy
    simp only [Except.ok.injEq] at hy
    subst hy
    exact hres
  · intro hfind
    unfold processFilter at hy
    rw [hfind] at hy
    cases hroot : resolveSubscriptionContext filter with
    | error e => rw [hroot] at hy; exact Except.noConfusion hy
    | ok root =>
        rw [hroot] at hy
        exact ⟨root, y, rfl, hy, hres⟩

/-- Concrete session used by the witness scenarios. -/
def wSession : AzureSession :=
  { credentials := "cred", tenantId := "tenant", userId := "user",
    environment := "AzureCloud" }

/-- Concrete filter `n` (fully-qualified id `/subscriptions/n`). -/
def wFilter (n : String) : AzureResourceFilter :=
  { session := wSession,
    subscription :=
      { id := some ("/subscriptions/" ++ n),
        subscriptionId := some n,
        displayName := some ("Sub " ++ n) } }

/-- The resolved context of `wFilter n`. -/
def wRoot (n : String) : ISubscriptionContext :=
  { credentials := "cred", subscriptionDisplayName := "Sub " ++ n,
    subscriptionId := n, subscriptionPath := "/subscriptions/" ++ n,
    tenantId := "tenant", userId := "user", environment := "AzureCloud" }

/-- Previous-generation node for `/subscriptions/1`. -/
def nodeA : SubscriptionTreeItemBase :=
  { id := some "/subscriptions/1", root := wRoot "1", tag := 1 }

/-- Previous-generation node for `/subscriptions/2`. -/
def nodeB : SubscriptionTreeItemBase :=
  { id := some "/subscriptions/2", root := wRoot "2", tag := 2 }

/-- A total factory: builds a fresh node (tag 100) from the resolved
context. -/
def wFactory : ISubscriptionContext → Except TreeError SubscriptionTreeItemBase :=
  fun root => Except.ok { id := some root.subscriptionPath, root := root, tag := 100 }

/-- The node `wFactory` builds for `wFilter "3"`. -/
def nodeC : SubscriptionTreeItemBase :=
  { id := some "/subscriptions/3", root := wRoot "3", tag := 100 }

theorem reconcileSubscriptions_spec_witness :
    [nodeB, nodeC].length = [wFilter "2", wFilter "3"].length ∧
    [nodeB, nodeC].get? 0 = some nodeB := by
  have h := reconcileSubscriptions_spec [nodeA, nodeB] [wFilter "2", wFilter "3"]
    wFactory [nodeB, nodeC] (by decide)
  exact ⟨h.1, (h.2 0 (wFilter "2") rfl).1 nodeB (by decide)⟩

theorem loadMoreChildrenImpl_loggedIn_reduce (clearCache : Bool)
    (account : AzureAccount) (state : TreeState)
    (factory : ISubscriptionContext → Except TreeError SubscriptionTreeItemBase)
    (hstatus : account.status = AzureLoginStatus.LoggedIn)
    (hne : account.filters.length ≠ 0) :
    loadMoreChildrenImpl clearCache (some account) state factory =
      match reconcileSubscriptions (existingOf state) account.filters factory with
      | Except.ok items =>
          { result := Except.ok (items.map AzExtTreeItem.subscription),
            state := { subscriptionTreeItems := some items },
            accountStatus := account.status.telemetryValue }
      | Except.error e =>
          { result := Except.error e,
            state := { subscriptionTreeItems := some [] },
            accountStatus := account.status.telemetryValue } := by
  simp only [loadMoreChildrenImpl, hstatus]
  rw [if_neg (by decide), if_neg (by decide), if_neg hne]

/-- C2: if the factory `createSubscriptionTreeItem` is invoked for some filter
of the pass (no previous node matches that filter, its context resolves) and
fails, the entire `loadMoreChildrenImpl` pass fails: the result is an error
and no (partial) subscription-node list is returned. -/
theorem loadMoreChildrenImpl_factoryFailure (clearCache : Bool)
    (account : AzureAccount) (state : TreeState)
    (factory : ISubscriptionContext → Except TreeError SubscriptionTreeItemBase)
    (filter : AzureResourceFilter) (root : ISubscriptionContext) (e : TreeError)
    (hstatus : account.status = AzureLoginStatus.LoggedIn)
    (hmem : filter ∈ account.filters)
    (hfind : (existingOf state).find? (fun ti => ti.id == filter.subscription.id) = none)
    (hroot : resolveSubscriptionContext filter = Except.ok root)
    (hfactory : factory root = Except.error e) :
    (∃ e2, (loadMoreChildrenImpl clearCache (some account) state factory).result
        = Except.error e2) ∧
    ∀ l, (loadMoreChildrenImpl clearCache (some account) state factory).result
        ≠ Except.ok l := by
  have hpf : processFilter (existingOf state) factory filter = Except.error e := by
    unfold processFilter
    rw [hfind, hroot]
    exact hfactory
  rcases mapExcept_error_of_mem (processFilter (existingOf state) factory)
    account.filters filter hmem e hpf with ⟨e2, hrec⟩
  have hne : account.filters.length ≠ 0 := by
    intro h0
    rw [List.length_eq_zero] at h0
    rw [h0] at hmem
    exact absurd hmem (List.not_mem_nil filter)
  rw [loadMoreChildrenImpl_loggedIn_reduce clearCache account state factory hstatus hne]
  unfold reconcileSubscriptions
  rw [hrec]
  exact ⟨⟨e2, rfl⟩, fun l h => Except.noConfusion h⟩

theorem loadMoreChildrenImpl_factoryFailure_witness :
    (∃ e2, (loadMoreChildrenImpl false
        (some { status := AzureLoginStatus.LoggedIn, filters := [wFilter "2", wFilter "3"] })
        { subscriptionTreeItems := some [nodeA] }
        (fun _ => Except.error (TreeError.factoryFailure "boom"))).result
        = Except.error e2) ∧
    ∀ l, (loadMoreChildrenImpl false
        (some { status := AzureLoginStatus.LoggedIn, filters := [wFilter "2", wFilter "3"] })
        { subscriptionTreeItems := some [nodeA] }
        (fun _ => Except.error (TreeError.factoryFailure "boom"))).result
        ≠ Except.ok l :=
  loadMoreChildrenImpl_factoryFailure false
    { status := AzureLoginStatus.LoggedIn, filters := [wFilter "2", wFilter "3"] }
    { subscriptionTreeItems := some [nodeA] }
    (fun _ => Except.error (TreeError.factoryFailure "boom"))
    (wFilter "2") (wRoot "2") (TreeError.factoryFailure "boom")
    rfl (by decide) (by decide) (by decide) rfl

/-- C9: reconciliation is not atomic on failure.  With a logged-in account and
a non-empty filter list, `loadMoreChildrenImpl` overwrites the cached
subscription-node list with the empty list before the factory calls, so if
the pass fails the error propagates while the cache is left holding the empty
list, and a subsequent pass finds no existing node for any filter: every
output node of the next pass comes from the factory, including identities
that had live nodes before the failure. -/
theorem loadMoreChildrenImpl_failure_clears_cache (clearCache1 clearCache2 : Bool)
    (account : AzureAccount) (state : TreeState)
    (factory1 factory2 : ISubscriptionContext → Except TreeError SubscriptionTreeItemBase)
    (e : TreeError)
    (hstatus : account.status = AzureLoginStatus.LoggedIn)
    (hne : account.filters.length ≠ 0)
    (hfail : reconcileSubscriptions (existingOf state) account.filters factory1
        = Except.error e) :
    (loadMoreChildrenImpl clearCache1 (some account) state factory1).result
      = Except.error e ∧
    (loadMoreChildrenImpl clearCache1 (some account) state factory1).state
      = { subscriptionTreeItems := some [] } ∧
    (loadMoreChildrenImpl clearCache2 (some account)
        (loadMoreChildrenImpl clearCache1 (some account) state factory1).state
        factory2).result
      = Except.map (List.map AzExtTreeItem.subscription)
          (mapExcept (fun filter => Except.bind (resolveSubscriptionContext filter) factory2)
            account.filters) := by
  have h1 := loadMoreChildrenImpl_loggedIn_reduce clearCache1 account state factory1
    hstatus hne
  rw [hfail] at h1
  refine ⟨by rw [h1], by rw [h1], ?_⟩
  rw [h1]
  have h2 := loadMoreChildrenImpl_loggedIn_reduce clearCache2 account
    { subscriptionTreeItems := some [] } factory2 hstatus hne
  rw [h2]
  have hempty : reconcileSubscriptions (existingOf { subscriptionTreeItems := some [] })
      account.filters factory2
      = mapExcept (fun filter => Except.bind (resolveSubscriptionContext filter) factory2)
          account.filters := by
    unfold reconcileSubscriptions
    exact mapExcept_congr _ _ account.filters (fun x _ => rfl)
  rw [hempty]
  cases mapExcept (fun filter => Except.bind (resolveSubscriptionContext filter) factory2)
      account.filters with
  | ok items => rfl
  | error e2 => rfl

/-- A factory that always fails, used by the failure witnesses. -/
def wFailFactory : ISubscriptionContext → Except TreeError SubscriptionTreeItemBase :=
  fun _ => Except.error (TreeError.factoryFailure "boom")

/-- A logged-in account whose filter list names subscriptions 1 and 2. -/
def wAccountTwoFilters : AzureAccount :=
  { status := AzureLoginStatus.LoggedIn, filters := [wFilter "1", wFilter "2"] }

theorem loadMoreChildrenImpl_failure_clears_cache_witness :
    (loadMoreChildrenImpl false (some wAccountTwoFilters)
        { subscriptionTreeItems := some [nodeA] } wFailFactory).result
      = Except.error (TreeError.factoryFailure "boom") ∧
    (loadMoreChildrenImpl false (some wAccountTwoFilters)
        { subscriptionTreeItems := some [nodeA] } wFailFactory).state
      = { subscriptionTreeItems := some [] } ∧
    (loadMoreChildrenImpl false (some wAccountTwoFilters)
        (loadMoreChildrenImpl false (some wAccountTwoFilters)
          { subscriptionTreeItems := some [nodeA] } wFailFactory).state
        wFactory).result
      = Except.map (List.map AzExtTreeItem.subscription)
          (mapExcept (fun filter => Except.bind (resolveSubscriptionContext filter) wFactory)
            wAccountTwoFilters.filters) :=
  loadMoreChildrenImpl_failure_clears_cache false false wAccountTwoFilters
    { subscriptionTreeItems := some [nodeA] } wFailFactory wFactory
    (TreeError.factoryFailure "boom") rfl (by decide) (by decide)

/-- C4: the registered status listener never schedules a refresh when the new
status is LoggedIn, schedules one for every other new status, and the
filters-changed listener schedules a refresh unconditionally. -/
theorem schedulesRefresh_spec :
    schedulesRefresh (AccountEvent.statusChanged AzureLoginStatus.LoggedIn) = false ∧
    (∀ s : AzureLoginStatus, s ≠ AzureLoginStatus.LoggedIn →
      schedulesRefresh (AccountEvent.statusChanged s) = true) ∧
    schedulesRefresh AccountEvent.filtersChanged = true := by
  refine ⟨rfl, ?_, rfl⟩
  intro s hs
  cases s with
  | Initializing => rfl
  | LoggingIn => rfl
  | LoggedIn => exact absurd rfl hs
  | LoggedOut => rfl

theorem schedulesRefresh_spec_witness :
    schedulesRefresh (AccountEvent.statusChanged AzureLoginStatus.LoggedOut) = true :=
  schedulesRefresh_spec.2.1 AzureLoginStatus.LoggedOut (by decide)

theorem loadMoreChildrenImpl_initializing_counterexample :
    (loadMoreChildrenImpl false
        (some { status := AzureLoginStatus.Initializing, filters := [] })
        { subscriptionTreeItems := none } wFactory).result
      = Except.ok [AzExtTreeItem.generic (loadingTreeItem AzureLoginStatus.Initializing)] ∧
    (loadingTreeItem AzureLoginStatus.Initializing).commandId = some signInCommandId ∧
    (loadingTreeItem AzureLoginStatus.Initializing).commandId ≠ none := by
  exact ⟨rfl, rfl, by decide⟩

/-- C5 amended: when status is Initializing, `loadMoreChildrenImpl` returns a
single "Loading..." placeholder that is excluded from the tree-item picker,
but the placeholder does carry an invokable command: it holds the sign-in
command, and its id equals the sign-in command id. -/
theorem loadMoreChildrenImpl_initializing (clearCache : Bool)
    (filters : List AzureResourceFilter) (state : TreeState)
    (factory : ISubscriptionContext → Except TreeError SubscriptionTreeItemBase) :
    (loadMoreChildrenImpl clearCache
        (some { status := AzureLoginStatus.Initializing, filters := filters })
        state factory).result
      = Except.ok [AzExtTreeItem.generic (loadingTreeItem AzureLoginStatus.Initializing)] ∧
    (loadingTreeItem AzureLoginStatus.Initializing).label = "Loading..." ∧
    (loadingTreeItem AzureLoginStatus.Initializing).commandId = some signInCommandId ∧
    (loadingTreeItem AzureLoginStatus.Initializing).id = some signInCommandId ∧
    (loadingTreeItem AzureLoginStatus.Initializing).includeInTreeItemPicker = false :=
  ⟨rfl, rfl, rfl, rfl, rfl⟩

/-- C6: when the Azure Account extension is not installed (no test account and
no extension found), `loadAzureAccount` resolves to no account and never sets
the `isAzureAccountInstalled` flag, and `loadMoreChildrenImpl` returns exactly
one actionable "Install Azure Account Extension..." node, leaving the cached
subscription list untouched. -/
theorem loadMoreChildrenImpl_notInstalled (clearCache : Bool) (state : TreeState)
    (factory : ISubscriptionContext → Except TreeError SubscriptionTreeItemBase) :
    (loadAzureAccount none none).account = none ∧
    (loadAzureAccount none none).installedFlagSet = false ∧
    (loadMoreChildrenImpl clearCache none state factory).result
      = Except.ok [AzExtTreeItem.generic installAzureAccountItem] ∧
    (loadMoreChildrenImpl clearCache none state factory).state = state ∧
    (loadMoreChildrenImpl clearCache none state factory).accountStatus = "notInstalled" ∧
    installAzureAccountItem.commandId = some extensionOpenCommand ∧
    installAzureAccountItem.commandArgs = some [azureAccountExtensionId] ∧
    installAzureAccountItem.includeInTreeItemPicker = true :=
  ⟨rfl, rfl, rfl, rfl, rfl, rfl, rfl, rfl⟩

/-- C8: when status is LoggedIn and the filter list observed after
`waitForFilters()` is empty, `loadMoreChildrenImpl` returns exactly one
actionable "Select Subscriptions..." placeholder. -/
theorem loadMoreChildrenImpl_loggedIn_noFilters (clearCache : Bool) (state : TreeState)
    (factory : ISubscriptionContext → Except TreeError SubscriptionTreeItemBase) :
    (loadMoreChildrenImpl clearCache
        (some { status := AzureLoginStatus.LoggedIn, filters := [] }) state factory).result
      = Except.ok [AzExtTreeItem.generic selectSubscriptionsTreeItem] ∧
    selectSubscriptionsTreeItem.label = selectSubscriptionsLabel ∧
    selectSubscriptionsTreeItem.commandId = some selectSubscriptionsCommandId ∧
    selectSubscriptionsTreeItem.includeInTreeItemPicker = true :=
  ⟨rfl, rfl, rfl, rfl⟩

theorem resolveSubscriptionContext_error (filter : AzureResourceFilter) (e : TreeError)
    (h : resolveSubscriptionContext filter = Except.error e) :
    ∃ prop, e = TreeError.nonNullError prop := by
  unfold resolveSubscriptionContext nonNull at h
  cases hdn : filter.subscription.displayName with
  | none =>
      rw [hdn] at h
      have h2 : (Except.error (TreeError.nonNullError "displayName") :
          Except TreeError ISubscriptionContext) = Except.error e := h
      injection h2 with h3
      exact ⟨"displayName", h3.symm⟩
  | some dn =>
      rw [hdn] at h
      cases hsi : filter.subscription.subscriptionId with
      | none =>
          rw [hsi] at h
          have h2 : (Except.error (TreeError.nonNullError "subscriptionId") :
              Except TreeError ISubscriptionContext) = Except.error e := h
          injection h2 with h3
          exact ⟨"subscriptionId", h3.symm⟩
      | some si =>
          rw [hsi] at h
          cases hid : filter.subscription.id with
          | none =>
              rw [hid] at h
              have h2 : (Except.error (TreeError.nonNullError "id") :
                  Except TreeError ISubscriptionContext) = Except.error e := h
              injection h2 with h3
              exact ⟨"id", h3.symm⟩
          | some fullId =>
              rw [hid] at h
              exact absurd h (by exact fun h2 => Except.noConfusion h2)

theorem processFilter_error_not_cancelled
    (existingSubscriptions : List SubscriptionTreeItemBase)
    (factory : ISubscriptionContext → Except TreeError SubscriptionTreeItemBase)
    (filter : AzureResourceFilter) (e : TreeError)
    (hfactory : ∀ root e2, factory root = Except.error e2 → e2 ≠ TreeError.userCancelled)
    (h : processFilter existingSubscriptions factory filter = Except.error e) :
    e ≠ TreeError.userCancelled := by
  unfold processFilter at h
  split at h
  · exact Except.noConfusion h
  · cases hroot : resolveSubscriptionContext filter with
    | error e0 =>
        rw [hroot] at h
        have h2 : (Except.error e0 :
            Except TreeError SubscriptionTreeItemBase) = Except.error e := h
        injection h2 with h3
        subst h3
        rcases resolveSubscriptionContext_error filter e0 hroot with ⟨prop, hprop⟩
        subst hprop
        exact fun hc => TreeError.noConfusion hc
    | ok root =>
        rw [hroot] at h
        exact hfactory root e h

theorem loadMoreChildrenImpl_error_not_cancelled (clearCache : Bool)
    (account : AzureAccount) (state : TreeState)
    (factory : ISubscriptionContext → Except TreeError SubscriptionTreeItemBase)
    (e : TreeError)
    (hfactory : ∀ root e2, factory root = Except.error e2 → e2 ≠ TreeError.userCancelled)
    (herr : (loadMoreChildrenImpl clearCache (some account) state factory).result
        = Except.error e) :
    e ≠ TreeError.userCancelled := by
  simp only [loadMoreChildrenImpl] at herr
  split at herr
  · simp at herr
  · split at herr
    · simp at herr
    · split at herr
      · simp at herr
      · split at herr
        · simp at herr
        · rename_i items heq
          simp only at herr
          injection herr with h3
          subst h3
          rcases mapExcept_error_mem (processFilter (existingOf state) factory)
            account.filters items heq with ⟨x, hx, hfx⟩
          exact processFilter_error_not_cancelled (existingOf state) factory x items
            hfactory hfx

theorem ensureSubscriptionTreeItems_counterexample :
    (ensureSubscriptionTreeItems none true { subscriptionTreeItems := none } wFactory).result
      = Except.error TreeError.userCancelled ∧
    (ensureSubscriptionTreeItems none true
        { subscriptionTreeItems := none } wFactory).openedMarketplace = true :=
  ⟨rfl, rfl⟩

/-- C7 amended: when the provider is absent, `ensureSubscriptionTreeItems`
raises UserCancelled after offering the install action, and it does so
regardless of whether the user accepts or declines that offer (accepting
additionally opens the marketplace page); and, provided the caller-supplied
factory never fails with a user-cancellation itself, UserCancelled is raised
only in that provider-absent case. -/
theorem ensureSubscriptionTreeItems_spec (userAcceptsInstall : Bool) (state : TreeState)
    (factory : ISubscriptionContext → Except TreeError SubscriptionTreeItemBase)
    (hfactory : ∀ root e2, factory root = Except.error e2 → e2 ≠ TreeError.userCancelled) :
    ((ensureSubscriptionTreeItems none userAcceptsInstall state factory).result
        = Except.error TreeError.userCancelled ∧
     (ensureSubscriptionTreeItems none userAcceptsInstall state factory).openedMarketplace
        = userAcceptsInstall ∧
     (ensureSubscriptionTreeItems none userAcceptsInstall state factory).cancelStep
        = some "requiresAzureAccount") ∧
    ∀ account : AzureAccount,
      (ensureSubscriptionTreeItems (some account) userAcceptsInstall state factory).result
        ≠ Except.error TreeError.userCancelled := by
  refine ⟨⟨rfl, rfl, rfl⟩, ?_⟩
  intro account h
  simp only [ensureSubscriptionTreeItems] at h
  split at h
  · simp at h
  · split at h
    · rename_i e heq
      simp only at h
      injection h with h3
      exact loadMoreChildrenImpl_error_not_cancelled false account state factory e
        hfactory heq h3
    · rename_i ok2 heq
      cases hst : (loadMoreChildrenImpl false (some account) state
          factory).state.subscriptionTreeItems with
      | none =>
          simp only [nonNull, hst] at h
          injection h with h3
          exact TreeError.noConfusion h3
      | some items =>
          simp only [nonNull, hst] at h
          exact Except.noConfusion h

theorem ensureSubscriptionTreeItems_spec_witness :
    (ensureSubscriptionTreeItems none true { subscriptionTreeItems := none } wFactory).result
      = Except.error TreeError.userCancelled ∧
    (ensureSubscriptionTreeItems none true
        { subscriptionTreeItems := none } wFactory).openedMarketplace = true ∧
    (ensureSubscriptionTreeItems (some wAccountTwoFilters) true
        { subscriptionTreeItems := none } wFactory).result
      ≠ Except.error TreeError.userCancelled := by
  have h := ensureSubscriptionTreeItems_spec true { subscriptionTreeItems := none } wFactory
    (fun root e2 herr => Except.noConfusion herr)
  exact ⟨h.1.1, h.1.2.1, h.2 wAccountTwoFilters⟩

theorem getSubscriptionPromptStep_single (azureAccount : Option AzureAccount)
    (userAcceptsInstall : Bool) (state : TreeState)
    (factory : ISubscriptionContext → Except TreeError SubscriptionTreeItemBase)
    (context : SubscriptionWizardContext) (s : SubscriptionTreeItemBase)
    (hsubs : (ensureSubscriptionTreeItems azureAccount userAcceptsInstall state factory).result
        = Except.ok [s]) :
    getSubscriptionPromptStep azureAccount userAcceptsInstall state factory context =
      { result := Except.ok false,
        context := assignSubscriptionContext context s.root,
        state := (ensureSubscriptionTreeItems azureAccount userAcceptsInstall state
          factory).state,
        openedMarketplace := (ensureSubscriptionTreeItems azureAccount userAcceptsInstall
          state factory).openedMarketplace } := by
  simp only [getSubscriptionPromptStep]
  rw [hsubs]

theorem getSubscriptionPromptStep_multi (azureAccount : Option AzureAccount)
    (userAcceptsInstall : Bool) (state : TreeState)
    (factory : ISubscriptionContext → Except TreeError SubscriptionTreeItemBase)
    (context : SubscriptionWizardContext) (a b : SubscriptionTreeItemBase)
    (rest : List SubscriptionTreeItemBase)
    (hsubs : (ensureSubscriptionTreeItems azureAccount userAcceptsInstall state factory).result
        = Except.ok (a :: b :: rest)) :
    getSubscriptionPromptStep azureAccount userAcceptsInstall state factory context =
      { result := Except.ok true,
        context := context,
        state := (ensureSubscriptionTreeItems azureAccount userAcceptsInstall state
          factory).state,
        openedMarketplace := (ensureSubscriptionTreeItems azureAccount userAcceptsInstall
          state factory).openedMarketplace } := by
  simp only [getSubscriptionPromptStep]
  rw [hsubs]

/-- A context with the subscriptionId property present but holding the empty
string. -/
def wContextEmptyId : SubscriptionWizardContext :=
  { credentials := none, subscriptionDisplayName := none, subscriptionId := some "",
    subscriptionPath := none, tenantId := none, userId := none, environment := none }

/-- A context with no subscription field set. -/
def wContextBlank : SubscriptionWizardContext :=
  { credentials := none, subscriptionDisplayName := none, subscriptionId := none,
    subscriptionPath := none, tenantId := none, userId := none, environment := none }

theorem getSubscriptionPromptStep_counterexample :
    (getSubscriptionPromptStep (some wAccountTwoFilters) false
        { subscriptionTreeItems := some [nodeA, nodeB] } wFactory wContextEmptyId).result
      = Except.ok true ∧
    wContextEmptyId.subscriptionId = some "" ∧
    subscriptionShouldPrompt wContextEmptyId = true :=
  ⟨rfl, rfl, by decide⟩

/-- C3 amended: when the materialized subscription list has exactly one
element, `getSubscriptionPromptStep` copies that subscription's resolved
context fields into the caller's context and returns no prompt step; when it
has two or more elements it returns a prompt step, leaving the context
unchanged, and the step's `shouldPrompt` predicate returns false exactly when
`subscriptionId` is set to a non-empty string in the context (JavaScript
truthiness: a `subscriptionId` present but equal to the empty string still
prompts). -/
theorem getSubscriptionPromptStep_spec (account : AzureAccount)
    (userAcceptsInstall : Bool) (state : TreeState)
    (factory : ISubscriptionContext → Except TreeError SubscriptionTreeItemBase)
    (context : SubscriptionWizardContext)
    (subscriptions : List SubscriptionTreeItemBase)
    (hsubs : (ensureSubscriptionTreeItems (some account) userAcceptsInstall state
        factory).result = Except.ok subscriptions) :
    (∀ s, subscriptions = [s] →
      (getSubscriptionPromptStep (some account) userAcceptsInstall state factory
          context).result = Except.ok false ∧
      (getSubscriptionPromptStep (some account) userAcceptsInstall state factory
          context).context = assignSubscriptionContext context s.root) ∧
    (2 ≤ subscriptions.length →
      (getSubscriptionPromptStep (some account) userAcceptsInstall state factory
          context).result = Except.ok true ∧
      (getSubscriptionPromptStep (some account) userAcceptsInstall state factory
          context).context = context) ∧
    (∀ c : SubscriptionWizardContext,
      subscriptionShouldPrompt c = false ↔ ∃ s2, c.subscriptionId = some s2 ∧ s2 ≠ "") := by
  refine ⟨?_, ?_, ?_⟩
  · intro s hs
    subst hs
    have hred := getSubscriptionPromptStep_single (some account) userAcceptsInstall state
      factory context s hsubs
    exact ⟨by rw [hred], by rw [hred]⟩
  · intro h2
    cases subscriptions with
    | nil => simp at h2
    | cons a tail =>
        cases tail with
        | nil => simp at h2
        | cons b rest =>
            have hred := getSubscriptionPromptStep_multi (some account) userAcceptsInstall
              state factory context a b rest hsubs
            exact ⟨by rw [hred], by rw [hred]⟩
  · intro c
    simp only [subscriptionShouldPrompt, truthyString]
    cases hc : c.subscriptionId with
    | none => simp
    | some s => simp

/-- A cached state holding exactly one subscription node. -/
def wStateOne : TreeState := { subscriptionTreeItems := some [nodeB] }

theorem getSubscriptionPromptStep_spec_witness :
    (getSubscriptionPromptStep (some wAccountTwoFilters) false wStateOne wFactory
        wContextBlank).result = Except.ok false ∧
    (getSubscriptionPromptStep (some wAccountTwoFilters) false wStateOne wFactory
        wContextBlank).context = assignSubscriptionContext wContextBlank nodeB.root :=
  (getSubscriptionPromptStep_spec wAccountTwoFilters false wStateOne wFactory wContextBlank
    [nodeB] rfl).1 nodeB rfl

/-- C10: when the provider is present and the materialized subscription list
is empty, `getSubscriptionPromptStep` neither fails nor auto-resolves: it
returns an interactive prompt step and leaves the caller's context unchanged,
exactly as in the two-or-more case. -/
theorem getSubscriptionPromptStep_emptyList (account : AzureAccount)
    (userAcceptsInstall : Bool)
    (factory : ISubscriptionContext → Except TreeError SubscriptionTreeItemBase)
    (context : SubscriptionWizardContext) :
    (getSubscriptionPromptStep (some account) userAcceptsInstall
        { subscriptionTreeItems := some [] } factory context).result = Except.ok true ∧
    (getSubscriptionPromptStep (some account) userAcceptsInstall
        { subscriptionTreeItems := some [] } factory context).context = context :=
  ⟨rfl, rfl⟩
